import Mathlib

/-!
Verification of the Pixshop photo-editing application core: the undo/redo
history manager, the AI-response validator, the face-detection result
filter, and the orchestrator's local validation and error handling.
All definitions are shallow embeddings of the TypeScript source
(`services/geminiService.ts` and `App.tsx`).
-/

namespace Pixshop

/-- Normalized face bounding box (`components/FaceDetectionPanel.tsx`,
interface `BoundingBox`): four numeric fields. JavaScript numbers are
modelled as rationals; only exact order comparisons are performed on them. -/
structure BoundingBox where
  x : ℚ
  y : ℚ
  width : ℚ
  height : ℚ
deriving DecidableEq

/-- The slice of the `App` component state (App.tsx) that the history
manager, the request validation and the error handling read or write.
`F` stands for the browser `File` type (an opaque image payload).
`historyIndex` is a JavaScript number, initially `-1`, so it is an `Int`. -/
structure AppState (F : Type) where
  history : List F
  historyIndex : Int
  error : Option String
  prompt : String
  editHotspot : Option (Int × Int)
  extractedText : String
  faces : List BoundingBox

variable {F : Type}

/-- Embeds `const currentImage = history[historyIndex] ?? null` (App.tsx):
JavaScript indexing with a negative or out-of-range index yields
`undefined`, hence `none`. -/
def currentImage (s : AppState F) : Option F :=
  if 0 ≤ s.historyIndex then s.history.get? s.historyIndex.toNat else none

/-- Embeds `const canUndo = historyIndex > 0` (App.tsx line 438). -/
def canUndo (s : AppState F) : Bool :=
  decide (0 < s.historyIndex)

/-- Embeds `const canRedo = historyIndex < history.length - 1` (App.tsx line 439). -/
def canRedo (s : AppState F) : Bool :=
  decide (s.historyIndex < (s.history.length : Int) - 1)

/-- Embeds `addImageToHistory` (App.tsx lines 441-451): truncate the history
to `[0, historyIndex]` with `slice(0, historyIndex + 1)`, push the new file,
set the index to the new last position, and reset the transient
extracted-text and face state. -/
def addImageToHistory (s : AppState F) (newImageFile : F) : AppState F :=
  let newHistory := s.history.take (s.historyIndex + 1).toNat ++ [newImageFile]
  { s with
    history := newHistory
    historyIndex := (newHistory.length : Int) - 1
    extractedText := ""
    faces := [] }

/-- Embeds `handleImageUpload` (App.tsx lines 453-464): reset the history to
the single uploaded file at position 0 and clear error and transient state. -/
def handleImageUpload (s : AppState F) (file : F) : AppState F :=
  { s with
    error := none
    history := [file]
    historyIndex := 0
    editHotspot := none
    extractedText := ""
    faces := [] }

/-- Embeds `handleUndo` (App.tsx lines 634-641): decrement the index only
when `canUndo`, clearing transient state; otherwise do nothing. -/
def handleUndo (s : AppState F) : AppState F :=
  if canUndo s then
    { s with historyIndex := s.historyIndex - 1, extractedText := "", faces := [] }
  else s

/-- Embeds `handleRedo` (App.tsx lines 643-650): increment the index only
when `canRedo`, clearing transient state; otherwise do nothing. -/
def handleRedo (s : AppState F) : AppState F :=
  if canRedo s then
    { s with historyIndex := s.historyIndex + 1, extractedText := "", faces := [] }
  else s

/-- One history-affecting user action after the upload. -/
inductive HistOp (F : Type) where
  | append (file : F)
  | undo
  | redo

/-- Applies one history operation to the application state. -/
def applyOp (s : AppState F) : HistOp F → AppState F
  | .append file => addImageToHistory s file
  | .undo => handleUndo s
  | .redo => handleRedo s

/-- Applies a sequence of history operations left to right. -/
def applyOps (s : AppState F) (ops : List (HistOp F)) : AppState F :=
  ops.foldl applyOp s

/-- Projection of C1: append after undo truncates the redo branch. -/
theorem append_undo_append_spec (s0 : AppState F) (a b c : F) :
    (applyOps (handleImageUpload s0 a) [HistOp.append b, HistOp.undo, HistOp.append c]).history
      = [a, c] ∧
    (applyOps (handleImageUpload s0 a) [HistOp.append b, HistOp.undo, HistOp.append c]).historyIndex
      = 1 :=
  ⟨rfl, rfl⟩

/-- History invariant established by an upload of `f`: the index is a valid
position in a non-empty sequence whose head is the original file. -/
def HistoryInv (f : F) (s : AppState F) : Prop :=
  0 ≤ s.historyIndex ∧ s.historyIndex < (s.history.length : Int) ∧
    s.history.head? = some f

theorem historyInv_upload (s0 : AppState F) (f : F) :
    HistoryInv f (handleImageUpload s0 f) := by
  refine ⟨le_refl 0, ?_, rfl⟩
  simp [handleImageUpload]

theorem historyInv_append (f : F) (s : AppState F) (h : HistoryInv f s) (x : F) :
    HistoryInv f (addImageToHistory s x) := by
  obtain ⟨h0, hlt, hhead⟩ := h
  cases hh : s.history with
  | nil => rw [hh] at hhead; exact absurd hhead (by simp)
  | cons a rest =>
    rw [hh] at hhead
    simp only [List.head?] at hhead
    obtain rfl : a = f := by injection hhead
    have hn : (s.historyIndex + 1).toNat = s.historyIndex.toNat + 1 := by omega
    constructor
    · simp [addImageToHistory]
    constructor
    · simp [addImageToHistory]
    · simp only [addImageToHistory, hh, hn, List.take_succ_cons]
      rfl

theorem historyInv_undo (f : F) (s : AppState F) (h : HistoryInv f s) :
    HistoryInv f (handleUndo s) := by
  obtain ⟨h0, hlt, hhead⟩ := h
  unfold handleUndo
  by_cases hc : canUndo s = true
  · rw [if_pos hc]
    have hcc : 0 < s.historyIndex := by simpa [canUndo] using hc
    refine ⟨?_, ?_, hhead⟩
    · show (0 : Int) ≤ s.historyIndex - 1
      omega
    · show s.historyIndex - 1 < (s.history.length : Int)
      omega
  · rw [if_neg hc]
    exact ⟨h0, hlt, hhead⟩

theorem historyInv_redo (f : F) (s : AppState F) (h : HistoryInv f s) :
    HistoryInv f (handleRedo s) := by
  obtain ⟨h0, hlt, hhead⟩ := h
  unfold handleRedo
  by_cases hc : canRedo s = true
  · rw [if_pos hc]
    have hcc : s.historyIndex < (s.history.length : Int) - 1 := by
      simpa [canRedo] using hc
    refine ⟨?_, ?_, hhead⟩
    · show (0 : Int) ≤ s.historyIndex + 1
      omega
    · show s.historyIndex + 1 < (s.history.length : Int)
      omega
  · rw [if_neg hc]
    exact ⟨h0, hlt, hhead⟩

theorem historyInv_applyOps (f : F) (s : AppState F) (h : HistoryInv f s)
    (ops : List (HistOp F)) : HistoryInv f (applyOps s ops) := by
  induction ops generalizing s with
  | nil => exact h
  | cons op rest ih =>
    have hstep : HistoryInv f (applyOp s op) := by
      cases op with
      | append x => exact historyInv_append f s h x
      | undo => exact historyInv_undo f s h
      | redo => exact historyInv_redo f s h
    exact ih (applyOp s op) hstep

/-- Projection of C2: after initialization by upload, every sequence of
append/undo/redo operations keeps the position in `[0, length - 1]`, keeps
the sequence non-empty, and preserves the element at index 0. -/
theorem history_invariant_spec (s0 : AppState F) (f : F) (ops : List (HistOp F)) :
    0 ≤ (applyOps (handleImageUpload s0 f) ops).historyIndex ∧
    (applyOps (handleImageUpload s0 f) ops).historyIndex
      ≤ ((applyOps (handleImageUpload s0 f) ops).history.length : Int) - 1 ∧
    1 ≤ (applyOps (handleImageUpload s0 f) ops).history.length ∧
    (applyOps (handleImageUpload s0 f) ops).history.head? = some f := by
  have h := historyInv_applyOps f (handleImageUpload s0 f) (historyInv_upload s0 f) ops
  obtain ⟨h0, hlt, hhead⟩ := h
  refine ⟨h0, by omega, ?_, hhead⟩
  cases hh : (applyOps (handleImageUpload s0 f) ops).history with
  | nil => rw [hh] at hhead; exact absurd hhead (by simp)
  | cons a rest => simp

/-- Projection of C5: on a valid history state, undo is a no-op exactly at
position 0 and otherwise moves the position down by one without touching the
sequence; redo is a no-op exactly at the last position and otherwise moves
the position up by one; `canUndo` holds iff the position is positive and
`canRedo` iff the position is below the last index. -/
theorem undo_redo_contract (s : AppState F)
    (h0 : 0 ≤ s.historyIndex)
    (h1 : s.historyIndex < (s.history.length : Int)) :
    (s.historyIndex = 0 → handleUndo s = s) ∧
    (s.historyIndex ≠ 0 →
      (handleUndo s).historyIndex = s.historyIndex - 1 ∧
      (handleUndo s).history = s.history) ∧
    (s.historyIndex = (s.history.length : Int) - 1 → handleRedo s = s) ∧
    (s.historyIndex ≠ (s.history.length : Int) - 1 →
      (handleRedo s).historyIndex = s.historyIndex + 1 ∧
      (handleRedo s).history = s.history) ∧
    (canUndo s = true ↔ 0 < s.historyIndex) ∧
    (canRedo s = true ↔ s.historyIndex < (s.history.length : Int) - 1) := by
  refine ⟨?_, ?_, ?_, ?_, ?_, ?_⟩
  · intro hz
    unfold handleUndo canUndo
    rw [hz]
    simp
  · intro hnz
    have hc : canUndo s = true := by unfold canUndo; simp; omega
    unfold handleUndo
    rw [hc]
    exact ⟨rfl, rfl⟩
  · intro hz
    unfold handleRedo canRedo
    rw [hz]
    simp
  · intro hnz
    have hc : canRedo s = true := by unfold canRedo; simp; omega
    unfold handleRedo
    rw [hc]
    exact ⟨rfl, rfl⟩
  · unfold canUndo; simp
  · unfold canRedo; simp

/-- Concrete two-element history at position 1 used to witness the
undo/redo contract. -/
def exState : AppState Nat :=
  { history := [10, 20], historyIndex := 1, error := none, prompt := "",
    editHotspot := none, extractedText := "", faces := [] }

theorem undo_redo_contract_witness :
    (handleUndo exState).historyIndex = exState.historyIndex - 1 ∧
    (handleUndo exState).history = exState.history :=
  (undo_redo_contract exState (by decide) (by decide)).2.1 (by decide)

/-- Image payload carried inside a response part (`inlineData` of the
service SDK): a MIME type and base64 data. -/
structure InlineData where
  mimeType : String
  data : String
deriving DecidableEq

/-- One part of a candidate's content; only the `inlineData` field is
inspected by the validator. -/
structure ResponsePart where
  inlineData : Option InlineData
deriving DecidableEq

/-- Content of a candidate: an optional list of parts. -/
structure Content where
  parts : Option (List ResponsePart)
deriving DecidableEq

/-- One response candidate: optional content and optional finish reason. -/
structure Candidate where
  content : Option Content
  finishReason : Option String
deriving DecidableEq

/-- Prompt feedback metadata: optional block reason and message. -/
structure PromptFeedback where
  blockReason : Option String
  blockReasonMessage : Option String
deriving DecidableEq

/-- The service response shape read by `handleApiResponse`
(geminiService.ts lines 28-65): prompt feedback, candidates, and the
aggregated text accessor. -/
structure GenerateContentResponse where
  promptFeedback : Option PromptFeedback
  candidates : Option (List Candidate)
  text : Option String
deriving DecidableEq

/-- Typed failure raised by the response validator; each constructor
carries the thrown `Error` message built by the source. -/
inductive ApiFailure where
  | blocked (message : String)
  | stoppedUnexpectedly (message : String)
  | noImageReturned (message : String)
deriving DecidableEq

/-- Embeds `response.candidates?.[0]?.content?.parts?.find(part =>
part.inlineData)` followed by the `.inlineData` access (geminiService.ts
lines 41-44): optional chaining is `Option.bind`, the JS `find` keeps the
first part whose `inlineData` is set. -/
def findImagePart (response : GenerateContentResponse) : Option InlineData :=
  ((((response.candidates.bind List.head?).bind Candidate.content).bind
      Content.parts).bind
    (fun parts => parts.find? (fun part => part.inlineData.isSome))).bind
    ResponsePart.inlineData

/-- Whether the response contains an image part. -/
def hasImagePart (response : GenerateContentResponse) : Bool :=
  (findImagePart response).isSome

/-- Embeds the final fallthrough of `handleApiResponse` (geminiService.ts
lines 57-64): no image, no block, normal finish — throw `NoImageReturned`
with any trimmed text feedback quoted in the message. -/
def noImageMessage (response : GenerateContentResponse) (context : String) :
    ApiFailure :=
  let textFeedback := (response.text.map String.trim).getD ""
  .noImageReturned ("The AI model did not return an image for the " ++ context
    ++ ". "
    ++ (if textFeedback ≠ "" then
          "The model responded with text: \"" ++ textFeedback ++ "\""
        else
          "This can happen due to safety filters or if the request is too complex. Please try rephrasing your prompt to be more direct."))

/-- Embeds `handleApiResponse` (geminiService.ts lines 28-65). Decision
order exactly as the source: (1) throw `Blocked` when
`promptFeedback?.blockReason` is set, (2) return the data URL when an image
part is found, (3) throw `StoppedUnexpectedly` on a finish reason other
than STOP, (4) throw `NoImageReturned`. -/
def handleApiResponse (response : GenerateContentResponse) (context : String) :
    Except ApiFailure String :=
  match response.promptFeedback.bind PromptFeedback.blockReason with
  | some blockReason =>
      .error (.blocked ("Request was blocked. Reason: " ++ blockReason ++ ". "
        ++ ((response.promptFeedback.bind
              PromptFeedback.blockReasonMessage).getD "")))
  | none =>
      match findImagePart response with
      | some imageData =>
          .ok ("data:" ++ imageData.mimeType ++ ";base64," ++ imageData.data)
      | none =>
          match (response.candidates.bind List.head?).bind
              Candidate.finishReason with
          | some finishReason =>
              if finishReason ≠ "STOP" then
                .error (.stoppedUnexpectedly ("Image generation for "
                  ++ context ++ " stopped unexpectedly. Reason: "
                  ++ finishReason
                  ++ ". This often relates to safety settings."))
              else .error (noImageMessage response context)
          | none => .error (noImageMessage response context)

/-- A PNG image part used by the concrete responses below. -/
def pngPart : ResponsePart :=
  { inlineData := some { mimeType := "image/png", data := "QUJD" } }

/-- Response that carries both a prompt-block reason and an image part. -/
def blockedWithImageResponse : GenerateContentResponse :=
  { promptFeedback := some { blockReason := some "SAFETY", blockReasonMessage := none },
    candidates := some [{ content := some { parts := some [pngPart] }, finishReason := some "STOP" }],
    text := none }

/-- Counterexample to C3: this response contains an image part, yet the
validator fails with `Blocked` (and in particular does not succeed with the
image's data URL), because the source checks the prompt-block reason before
looking for an image. -/
theorem image_with_block_reason_counterexample :
    hasImagePart blockedWithImageResponse = true ∧
    handleApiResponse blockedWithImageResponse "edit"
      = .error (ApiFailure.blocked "Request was blocked. Reason: SAFETY. ") ∧
    handleApiResponse blockedWithImageResponse "edit"
      ≠ .ok "data:image/png;base64,QUJD" := by
  refine ⟨rfl, rfl, ?_⟩
  intro hcontra
  exact Except.noConfusion hcontra

/-- Projection of C3 as amended: when no prompt-block reason is set, a
response containing an image part succeeds with that image as a data URL
carrying the declared MIME type, whatever the finish reason or text. -/
theorem image_part_succeeds (response : GenerateContentResponse)
    (context : String) (imageData : InlineData)
    (hblock : response.promptFeedback.bind PromptFeedback.blockReason = none)
    (himg : findImagePart response = some imageData) :
    handleApiResponse response context
      = .ok ("data:" ++ imageData.mimeType ++ ";base64," ++ imageData.data) := by
  unfold handleApiResponse
  rw [hblock, himg]

/-- Response with an image part, a non-normal finish reason, accompanying
text, and no block fields. -/
def imageWithBadFinishResponse : GenerateContentResponse :=
  { promptFeedback := none,
    candidates := some [{ content := some { parts := some [pngPart] }, finishReason := some "MAX_TOKENS" }],
    text := some "accompanying text" }

theorem image_part_succeeds_witness :
    handleApiResponse imageWithBadFinishResponse "filter"
      = .ok ("data:" ++ "image/png" ++ ";base64," ++ "QUJD") :=
  image_part_succeeds imageWithBadFinishResponse "filter"
    { mimeType := "image/png", data := "QUJD" } rfl rfl

/-- Projection of C4: a response whose prompt feedback carries a block
reason and which has no image part fails with `Blocked`, carrying the
provided reason and message, whatever text accompanies the response. -/
theorem block_reason_yields_blocked (response : GenerateContentResponse)
    (context : String) (feedback : PromptFeedback) (reason : String)
    (hpf : response.promptFeedback = some feedback)
    (hbr : feedback.blockReason = some reason)
    (_himg : hasImagePart response = false) :
    handleApiResponse response context
      = .error (.blocked ("Request was blocked. Reason: " ++ reason ++ ". "
          ++ (feedback.blockReasonMessage.getD ""))) := by
  unfold handleApiResponse
  rw [hpf]
  simp only [Option.some_bind, hbr]

/-- Response with a block reason, a block message, accompanying text, and
no image part. -/
def blockedTextResponse : GenerateContentResponse :=
  { promptFeedback := some { blockReason := some "PROHIBITED_CONTENT",
                             blockReasonMessage := some "not allowed" },
    candidates := some [{ content := some { parts := some [] },
                          finishReason := some "STOP" }],
    text := some "some accompanying text" }

theorem block_reason_yields_blocked_witness :
    handleApiResponse blockedTextResponse "adjustment"
      = .error (.blocked ("Request was blocked. Reason: "
          ++ "PROHIBITED_CONTENT" ++ ". " ++ "not allowed")) :=
  block_reason_yields_blocked blockedTextResponse "adjustment"
    { blockReason := some "PROHIBITED_CONTENT",
      blockReasonMessage := some "not allowed" }
    "PROHIBITED_CONTENT" rfl rfl rfl

/-- Embeds the filter predicate of `detectFaces` (geminiService.ts lines
299-304): every coordinate of the face must lie within `[0, 1]`, in the
source's comparison order. -/
def faceInRange (face : BoundingBox) : Bool :=
  decide (0 ≤ face.x) && decide (face.x ≤ 1) &&
  decide (0 ≤ face.y) && decide (face.y ≤ 1) &&
  decide (0 ≤ face.width) && decide (face.width ≤ 1) &&
  decide (0 ≤ face.height) && decide (face.height ≤ 1)

/-- The case split `detectFaces` performs on the response text
(geminiService.ts lines 293-310), exhaustive over the behaviors of the
source: `JSON.parse` threw (`parseFailure`); `JSON.parse` returned `null`,
the only parse result on which the `result.faces` property access itself
throws a TypeError inside the `try` (`parsedNull`); the parsed value is
non-null but has no `faces` field that is an array — booleans, numbers,
strings, arrays, and objects without such a field, where `result.faces` is
`undefined` or fails `Array.isArray` (`noFacesArray`); or it has one
(`facesArray`, elements shaped per the response schema). -/
inductive ParsedFaceResponse where
  | parseFailure
  | parsedNull
  | noFacesArray
  | facesArray (faces : List BoundingBox)

/-- Embeds the result computation of `detectFaces` (geminiService.ts lines
293-310): a `JSON.parse` failure and the TypeError thrown by `result.faces`
on a parsed `null` both land in the same `catch`, which throws the
invalid-format error; a non-null parsed value without a `faces` array
reaches `return []`; a `faces` array is filtered to the in-range entries. -/
def detectFacesResult : ParsedFaceResponse → Except String (List BoundingBox)
  | .parseFailure =>
      .error "The AI model returned an invalid format for face detection."
  | .parsedNull =>
      .error "The AI model returned an invalid format for face detection."
  | .noFacesArray => .ok []
  | .facesArray faces => .ok (faces.filter faceInRange)

/-- The example face list of the spec: one in-range face and one face with
`x = 1.5` out of range. -/
def exampleFaces : List BoundingBox :=
  [{ x := 1/10, y := 1/10, width := 2/10, height := 2/10 },
   { x := 15/10, y := 1/10, width := 1/10, height := 1/10 }]

/-- Projection of C6: the face-detection result on a parsed face list keeps
exactly the in-range entries, and on the spec's example list it keeps
exactly the first face. -/
theorem face_filter_exact (faces : List BoundingBox) (face : BoundingBox) :
    detectFacesResult (.facesArray faces) = .ok (faces.filter faceInRange) ∧
    (face ∈ faces.filter faceInRange ↔ face ∈ faces ∧ faceInRange face = true) ∧
    detectFacesResult (.facesArray exampleFaces)
      = .ok [{ x := 1/10, y := 1/10, width := 2/10, height := 2/10 }] := by
  refine ⟨rfl, List.mem_filter, ?_⟩
  show Except.ok (exampleFaces.filter faceInRange) = _
  norm_num [exampleFaces, List.filter, faceInRange]

/-- Projection of C7: a face-detection response whose text is not parsable
as JSON yields the invalid-format error, never a face list. -/
theorem parse_failure_is_invalid_format :
    detectFacesResult ParsedFaceResponse.parseFailure
      = .error "The AI model returned an invalid format for face detection." ∧
    ∀ faces : List BoundingBox,
      detectFacesResult ParsedFaceResponse.parseFailure ≠ .ok faces :=
  ⟨rfl, fun _ h => Except.noConfusion h⟩

/-- Counterexample to C10: the response text `"null"` parses as valid JSON
(to `null`) and the parsed value lacks a `faces` field that is an array,
yet the operation raises the invalid-format error instead of returning the
empty list, because `result.faces` throws on `null` inside the `try`. -/
theorem parsed_null_counterexample :
    detectFacesResult ParsedFaceResponse.parsedNull
      = .error "The AI model returned an invalid format for face detection." ∧
    detectFacesResult ParsedFaceResponse.parsedNull ≠ .ok [] :=
  ⟨rfl, fun h => Except.noConfusion h⟩

/-- Projection of C10 as amended: a non-null parsed value without a `faces`
array yields the empty list and no error; a parsed `null` raises the same
invalid-format error as a parse failure; across all parse outcomes, exactly
the parse failure and the parsed-null cases produce an error. -/
theorem missing_faces_array_is_empty :
    detectFacesResult ParsedFaceResponse.noFacesArray = .ok [] ∧
    detectFacesResult ParsedFaceResponse.parsedNull
      = .error "The AI model returned an invalid format for face detection." ∧
    ∀ p : ParsedFaceResponse,
      (∃ e, detectFacesResult p = .error e) ↔
        (p = .parseFailure ∨ p = .parsedNull) := by
  refine ⟨rfl, rfl, ?_⟩
  intro p
  constructor
  · intro he
    obtain ⟨e, he⟩ := he
    cases p with
    | parseFailure => exact Or.inl rfl
    | parsedNull => exact Or.inr rfl
    | noFacesArray => exact Except.noConfusion he
    | facesArray faces => exact Except.noConfusion he
  · intro hp
    cases hp with
    | inl hp =>
        subst hp
        exact ⟨"The AI model returned an invalid format for face detection.", rfl⟩
    | inr hp =>
        subst hp
        exact ⟨"The AI model returned an invalid format for face detection.", rfl⟩

/-- Outcome of the local validation phase of `handleGenerate` (App.tsx
lines 466-480): either an early return after `setError` (no service call),
or a call to `generateEditedImage` with the current image, the prompt and
the hotspot. -/
inductive RetouchAttempt (F : Type) where
  | localError (message : String)
  | sendRequest (image : F) (userPrompt : String) (hotspot : Int × Int)
deriving DecidableEq

/-- Outcome of the local validation phase of `handleApplyFilter` /
`handleApplyAdjustment` (App.tsx lines 501-545): an early return after
`setError`, or a service call with the current image and the given text. -/
inductive TaskAttempt (F : Type) where
  | localError (message : String)
  | sendRequest (image : F) (promptText : String)
deriving DecidableEq

/-- Outcome of the local validation phase of the handlers that take no
text: `handleAutoEnhance`, `handleExtractText`, `handleDetectFaces`,
`handleRemoveBackground` (App.tsx lines 692-788). -/
inductive NoTextAttempt (F : Type) where
  | localError (message : String)
  | sendRequest (image : F)
deriving DecidableEq

/-- Executable model of JavaScript `String.prototype.trim`: drop leading
and trailing whitespace. -/
def trimString (s : String) : String :=
  String.mk ((s.data.dropWhile Char.isWhitespace).reverse.dropWhile
    Char.isWhitespace).reverse

/-- Embeds the validation phase of `handleGenerate` (App.tsx lines
466-480): checks, in source order, that an image is loaded, that the
trimmed prompt is non-empty (`!prompt.trim()`), and that a hotspot was
selected. -/
def handleGenerateCheck (s : AppState F) : RetouchAttempt F :=
  match currentImage s with
  | none => .localError "No image loaded to edit."
  | some image =>
      if trimString s.prompt = "" then
        .localError "Please enter a description for your edit."
      else
        match s.editHotspot with
        | none => .localError "Please click on the image to select an area to edit."
        | some hotspot => .sendRequest image s.prompt hotspot

/-- Embeds the validation phase of `handleApplyFilter` (App.tsx lines
501-510): only the presence of a loaded image is checked; the filter text
is forwarded as given. -/
def handleApplyFilterCheck (s : AppState F) (filterPrompt : String) :
    TaskAttempt F :=
  match currentImage s with
  | none => .localError "No image loaded to apply a filter to."
  | some image => .sendRequest image filterPrompt

/-- Embeds the validation phase of `handleApplyAdjustment` (App.tsx lines
524-533): only the presence of a loaded image is checked. -/
def handleApplyAdjustmentCheck (s : AppState F) (adjustmentPrompt : String) :
    TaskAttempt F :=
  match currentImage s with
  | none => .localError "No image loaded to apply an adjustment to."
  | some image => .sendRequest image adjustmentPrompt

/-- Embeds the validation phase of `handleAutoEnhance` (App.tsx lines
692-697). -/
def handleAutoEnhanceCheck (s : AppState F) : NoTextAttempt F :=
  match currentImage s with
  | none => .localError "No image loaded to enhance."
  | some image => .sendRequest image

/-- Embeds the validation phase of `handleExtractText` (App.tsx lines
716-721). -/
def handleExtractTextCheck (s : AppState F) : NoTextAttempt F :=
  match currentImage s with
  | none => .localError "No image loaded to extract text from."
  | some image => .sendRequest image

/-- Embeds the validation phase of `handleDetectFaces` (App.tsx lines
742-747). -/
def handleDetectFacesCheck (s : AppState F) : NoTextAttempt F :=
  match currentImage s with
  | none => .localError "No image loaded to detect faces in."
  | some image => .sendRequest image

/-- Embeds the validation phase of `handleRemoveBackground` (App.tsx lines
766-771). -/
def handleRemoveBackgroundCheck (s : AppState F) : NoTextAttempt F :=
  match currentImage s with
  | none => .localError "No image loaded to remove background from."
  | some image => .sendRequest image

/-- Single-image state used to exercise the validation phases. -/
def loadedState : AppState Nat :=
  { history := [7], historyIndex := 0, error := none, prompt := "",
    editHotspot := none, extractedText := "", faces := [] }

/-- Counterexample to C8: with an image loaded, `handleApplyFilter` and
`handleApplyAdjustment` pass empty instruction text straight to the service
call — no local validation of non-empty text happens and no local error is
produced. -/
theorem filter_empty_text_counterexample :
    handleApplyFilterCheck loadedState "" = TaskAttempt.sendRequest 7 "" ∧
    handleApplyAdjustmentCheck loadedState "" = TaskAttempt.sendRequest 7 "" :=
  ⟨rfl, rfl⟩

/-- Projection of C8 as amended: retouch validates a loaded image,
non-empty trimmed text and a focus point locally, in that order, failing
with a local error before any service call when one is missing; filter and
adjustment require only a loaded image and forward the given text
unchecked; the no-text handlers require only a loaded image. -/
theorem request_validation (s : AppState F) (t : String) :
    (currentImage s = none →
      handleGenerateCheck s = .localError "No image loaded to edit.") ∧
    (∀ image, currentImage s = some image → trimString s.prompt = "" →
      handleGenerateCheck s
        = .localError "Please enter a description for your edit.") ∧
    (∀ image, currentImage s = some image → trimString s.prompt ≠ "" →
      s.editHotspot = none →
      handleGenerateCheck s
        = .localError "Please click on the image to select an area to edit.") ∧
    (∀ image hotspot, currentImage s = some image → trimString s.prompt ≠ "" →
      s.editHotspot = some hotspot →
      handleGenerateCheck s = .sendRequest image s.prompt hotspot) ∧
    (currentImage s = none →
      handleApplyFilterCheck s t
        = .localError "No image loaded to apply a filter to.") ∧
    (∀ image, currentImage s = some image →
      handleApplyFilterCheck s t = .sendRequest image t) ∧
    (currentImage s = none →
      handleApplyAdjustmentCheck s t
        = .localError "No image loaded to apply an adjustment to.") ∧
    (∀ image, currentImage s = some image →
      handleApplyAdjustmentCheck s t = .sendRequest image t) ∧
    (∀ image, currentImage s = some image →
      handleAutoEnhanceCheck s = .sendRequest image ∧
      handleExtractTextCheck s = .sendRequest image ∧
      handleDetectFacesCheck s = .sendRequest image ∧
      handleRemoveBackgroundCheck s = .sendRequest image) ∧
    (currentImage s = none →
      handleAutoEnhanceCheck s = .localError "No image loaded to enhance." ∧
      handleExtractTextCheck s
        = .localError "No image loaded to extract text from." ∧
      handleDetectFacesCheck s
        = .localError "No image loaded to detect faces in." ∧
      handleRemoveBackgroundCheck s
        = .localError "No image loaded to remove background from.") := by
  refine ⟨?_, ?_, ?_, ?_, ?_, ?_, ?_, ?_, ?_, ?_⟩
  · intro h
    unfold handleGenerateCheck
    rw [h]
  · intro image h hp
    simp only [handleGenerateCheck, h]
    rw [if_pos hp]
  · intro image h hp hh
    simp only [handleGenerateCheck, h]
    rw [if_neg hp]
    simp only [hh]
  · intro image hotspot h hp hh
    simp only [handleGenerateCheck, h]
    rw [if_neg hp]
    simp only [hh]
  · intro h
    unfold handleApplyFilterCheck
    rw [h]
  · intro image h
    unfold handleApplyFilterCheck
    rw [h]
  · intro h
    unfold handleApplyAdjustmentCheck
    rw [h]
  · intro image h
    unfold handleApplyAdjustmentCheck
    rw [h]
  · intro image h
    unfold handleAutoEnhanceCheck handleExtractTextCheck
      handleDetectFacesCheck handleRemoveBackgroundCheck
    rw [h]
    exact ⟨rfl, rfl, rfl, rfl⟩
  · intro h
    unfold handleAutoEnhanceCheck handleExtractTextCheck
      handleDetectFacesCheck handleRemoveBackgroundCheck
    rw [h]
    exact ⟨rfl, rfl, rfl, rfl⟩

theorem request_validation_witness :
    handleGenerateCheck loadedState
      = .localError "Please enter a description for your edit." :=
  (request_validation loadedState "x").2.1 7 rfl (by decide)

/-- Embeds `handleGenerate` end to end (App.tsx lines 466-499): validation
failure stores the message with `setError` and returns; otherwise the
awaited service outcome either becomes a new history entry (clearing the
hotspot), or the caught error is stored as a readable message. `mk` stands
for `dataURLtoFile`; `serviceResult` is the resolution of the awaited
`generateEditedImage` call. -/
def handleGenerateFull (s : AppState F) (mk : String → F)
    (serviceResult : Except String String) : AppState F :=
  match handleGenerateCheck s with
  | .localError message => { s with error := some message }
  | .sendRequest _ _ _ =>
      match serviceResult with
      | .ok url =>
          let s1 := addImageToHistory { s with error := none } (mk url)
          { s1 with editHotspot := none }
      | .error message =>
          { s with error := some ("Failed to generate the image. " ++ message) }

/-- Embeds `handleRemoveBackground` end to end (App.tsx lines 766-788),
with the same conventions as `handleGenerateFull`. -/
def handleRemoveBackgroundFull (s : AppState F) (mk : String → F)
    (serviceResult : Except String String) : AppState F :=
  match handleRemoveBackgroundCheck s with
  | .localError message => { s with error := some message }
  | .sendRequest _ =>
      match serviceResult with
      | .ok url => addImageToHistory { s with error := none } (mk url)
      | .error message =>
          { s with error := some ("Failed to remove background. " ++ message) }

/-- Projection of C9: whenever an operation fails — by local validation or
by a rejected service call — the history sequence and position are exactly
the pre-operation ones and the error field holds a readable message,
for both the retouch and the background-removal orchestrator handlers. -/
theorem failed_ops_preserve_history (s : AppState F) (mk : String → F)
    (serviceResult : Except String String) (m : String) :
    (handleGenerateCheck s = RetouchAttempt.localError m →
      (handleGenerateFull s mk serviceResult).history = s.history ∧
      (handleGenerateFull s mk serviceResult).historyIndex = s.historyIndex ∧
      (handleGenerateFull s mk serviceResult).error = some m) ∧
    (serviceResult = .error m →
      ∀ image p hotspot,
        handleGenerateCheck s = RetouchAttempt.sendRequest image p hotspot →
        (handleGenerateFull s mk serviceResult).history = s.history ∧
        (handleGenerateFull s mk serviceResult).historyIndex = s.historyIndex ∧
        (handleGenerateFull s mk serviceResult).error
          = some ("Failed to generate the image. " ++ m)) ∧
    (handleRemoveBackgroundCheck s = NoTextAttempt.localError m →
      (handleRemoveBackgroundFull s mk serviceResult).history = s.history ∧
      (handleRemoveBackgroundFull s mk serviceResult).historyIndex
        = s.historyIndex ∧
      (handleRemoveBackgroundFull s mk serviceResult).error = some m) ∧
    (serviceResult = .error m →
      ∀ image,
        handleRemoveBackgroundCheck s = NoTextAttempt.sendRequest image →
        (handleRemoveBackgroundFull s mk serviceResult).history = s.history ∧
        (handleRemoveBackgroundFull s mk serviceResult).historyIndex
          = s.historyIndex ∧
        (handleRemoveBackgroundFull s mk serviceResult).error
          = some ("Failed to remove background. " ++ m)) := by
  refine ⟨?_, ?_, ?_, ?_⟩
  · intro hcheck
    simp only [handleGenerateFull, hcheck]
    exact ⟨trivial, trivial, trivial⟩
  · intro hres image p hotspot hcheck
    simp only [handleGenerateFull, hcheck, hres]
    exact ⟨trivial, trivial, trivial⟩
  · intro hcheck
    simp only [handleRemoveBackgroundFull, hcheck]
    exact ⟨trivial, trivial, trivial⟩
  · intro hres image hcheck
    simp only [handleRemoveBackgroundFull, hcheck, hres]
    exact ⟨trivial, trivial, trivial⟩

theorem failed_ops_preserve_history_witness :
    (handleRemoveBackgroundFull loadedState (fun _ => 0)
        (Except.error "service unavailable")).history = loadedState.history ∧
    (handleRemoveBackgroundFull loadedState (fun _ => 0)
        (Except.error "service unavailable")).historyIndex
      = loadedState.historyIndex ∧
    (handleRemoveBackgroundFull loadedState (fun _ => 0)
        (Except.error "service unavailable")).error
      = some ("Failed to remove background. " ++ "service unavailable") :=
  (failed_ops_preserve_history loadedState (fun _ => 0)
      (Except.error "service unavailable") "service unavailable").2.2.2
    rfl 7 rfl

end Pixshop
